import Mathlib

/-!
Verification of the image-statistics grading engine of the school-uniform
grading repository (`frontend/src/services/gradingService.js`).

Modelling conventions:

* A pixel of the canvas `ImageData` buffer is an `RGBA` record of byte
  values; the flat buffer (4 entries per pixel) is a `List RGBA`, and a
  decoded image is its list of rows.
* JavaScript numbers are modelled by exact rationals.  For the per-pixel
  statistics this is faithful to the claims checked here: every per-pixel
  predicate `(r+g+b)/3 < t` compares a third of an integer against an
  integer threshold, so double rounding can never flip it, and the
  remaining statistics enter the claims only through their exact values
  on concrete inputs or through bounds that are insensitive to rounding.
* The one place where double-precision rounding is observable in a claim
  is the weighted final score; there the double computation is modelled
  bit-exactly by `fl`, round-to-nearest-even at 53 significant bits,
  which is IEEE-754 binary64 semantics on the normal range used here.
* Dividing the zero sum of an empty region by its zero pixel count yields
  `NaN` in JavaScript; a possibly-NaN number is an `Option ℚ` with `none`
  for `NaN` (`jsDiv`), and comparisons against `NaN` are `false` (`jsLt`,
  `jsGt`), exactly as in JavaScript.  `Math.round` maps `NaN` to `NaN`,
  hence `Option.map jsMathRound`.
-/

namespace Grading

/- Batteries marks the arithmetic on `Rat` irreducible; concrete grading
computations are verified by kernel evaluation, which needs them
unfoldable. -/
attribute [local semireducible] Rat.mul Rat.add Rat.sub Rat.inv Rat.ofScientific

/-- Letter grades produced by the engine. -/
inductive Grade
  | A | B | C | D | F
deriving DecidableEq, Repr

/-- One pixel of a canvas `ImageData` buffer: red, green, blue, alpha. -/
structure RGBA where
  r : ℕ
  g : ℕ
  b : ℕ
  a : ℕ
deriving DecidableEq, Repr

/-- A decoded image as its list of pixel rows (row-major, top row first). -/
abbrev Image := List (List RGBA)

/-- Per-pixel brightness `(data[i] + data[i+1] + data[i+2]) / 3`. -/
def pixelBrightness (p : RGBA) : ℚ :=
  (p.r + p.g + p.b : ℚ) / 3

/-- JavaScript division as used in the statistics code.  Every numerator in
this file is a sum over the pixel list being divided by its length, so the
denominator is `0` exactly when the numerator is `0`, and `0 / 0` is `NaN`
in JavaScript, modelled as `none`. -/
def jsDiv (a b : ℚ) : Option ℚ :=
  if b = 0 then none else some (a / b)

/-- JavaScript `x < c` where `x` may be `NaN`: `NaN < c` is `false`. -/
def jsLt (x : Option ℚ) (c : ℚ) : Bool :=
  match x with
  | none => false
  | some v => decide (v < c)

/-- JavaScript `x > c` where `x` may be `NaN`: `NaN > c` is `false`. -/
def jsGt (x : Option ℚ) (c : ℚ) : Bool :=
  match x with
  | none => false
  | some v => decide (c < v)

/-- JavaScript `x < c` for a rounded (integer-valued) statistic. -/
def jsLtI (x : Option ℤ) (c : ℤ) : Bool :=
  match x with
  | none => false
  | some v => decide (v < c)

/-- JavaScript `x > c` for a rounded (integer-valued) statistic. -/
def jsGtI (x : Option ℤ) (c : ℤ) : Bool :=
  match x with
  | none => false
  | some v => decide (c < v)

/-- `Math.round`: the closest integer, ties toward `+∞`.  Mathlib's `round`
has exactly this convention (`round x = ⌊x + 1/2⌋`). -/
def jsMathRound (q : ℚ) : ℤ :=
  round q

/-- The record returned by `calculateImageStats`.  Averages are rounded to
integers by `Math.round`; each field is `none` when the JavaScript value
would be `NaN` (empty pixel list). -/
structure RegionStats where
  avgRed : Option ℤ
  avgGreen : Option ℤ
  avgBlue : Option ℤ
  avgBrightness : Option ℤ
  darkPixelRatio : Option ℚ
  whitePixelRatio : Option ℚ
deriving DecidableEq, Repr

/-- `calculateImageStats(data)`: one pass over the buffer accumulating the
channel sums, the brightness sum, and the counts of pixels with brightness
below 100 (dark) and above 200 (white), then dividing by the pixel count. -/
def calculateImageStats (data : List RGBA) : RegionStats :=
  { avgRed := (jsDiv ((data.map fun p => (p.r : ℚ)).sum) data.length).map jsMathRound
    avgGreen := (jsDiv ((data.map fun p => (p.g : ℚ)).sum) data.length).map jsMathRound
    avgBlue := (jsDiv ((data.map fun p => (p.b : ℚ)).sum) data.length).map jsMathRound
    avgBrightness := (jsDiv ((data.map pixelBrightness).sum) data.length).map jsMathRound
    darkPixelRatio :=
      jsDiv ((data.countP fun p => decide (pixelBrightness p < 100)) : ℚ) data.length
    whitePixelRatio :=
      jsDiv ((data.countP fun p => decide (pixelBrightness p > 200)) : ℚ) data.length }

/-- `colorVariation = |avgRed - avgGreen| + |avgGreen - avgBlue|`, computed
identically in four of the five scorers; `NaN` propagates. -/
def colorVariation (stats : RegionStats) : Option ℤ :=
  match stats.avgRed, stats.avgGreen, stats.avgBlue with
  | some r, some g, some b => some (|r - g| + |g - b|)
  | _, _, _ => none

/-- `ctx.getImageData(0, sy, width, sh)` restricted to the row structure:
the `sh` rows starting at row `sy`, flattened to a pixel buffer.  The
canvas API converts non-integral arguments by truncation toward zero,
which on the nonnegative heights used here is `Nat` floor division. -/
def getImageRows (img : Image) (sy sh : ℕ) : List RGBA :=
  ((img.drop sy).take sh).flatten

/-- The pants region, `getImageData(0, height / 2, width, height / 2)`:
rows `[⌊H/2⌋, ⌊H/2⌋ + ⌊H/2⌋)`.  JavaScript `img.height / 2` is float
division, truncated to `⌊H/2⌋` by the canvas argument conversion for both
the start row and the row count. -/
def lowerHalfData (img : Image) : List RGBA :=
  getImageRows img (img.length / 2) (img.length / 2)

/-- The shoes region: `bottomHeight = Math.floor(height * 0.15)` rows
ending at the bottom edge.  For every height below `2^50` the double
product `H * 0.15` floors to `⌊3H/20⌋`, which is the `Nat` division used
here. -/
def bottomStripData (img : Image) : List RGBA :=
  getImageRows img (img.length - 3 * img.length / 20) (3 * img.length / 20)

/-- The grooming region: `topHeight = Math.floor(height * 0.3)` rows from
the top edge; the double product floors to `⌊3H/10⌋` as above. -/
def topStripData (img : Image) : List RGBA :=
  getImageRows img 0 (3 * img.length / 10)

/-- Average brightness of the pants region (`NaN` when it is empty). -/
def lowerBrightness (img : Image) : Option ℚ :=
  jsDiv (((lowerHalfData img).map pixelBrightness).sum) ((lowerHalfData img).length)

/-- Dark-pixel ratio of the pants region; its loop counts pixels with
brightness below `100`. -/
def lowerDarkRatio (img : Image) : Option ℚ :=
  jsDiv (((lowerHalfData img).countP fun p => decide (pixelBrightness p < 100)) : ℚ)
    ((lowerHalfData img).length)

/-- Average brightness of the shoes region. -/
def bottomBrightness (img : Image) : Option ℚ :=
  jsDiv (((bottomStripData img).map pixelBrightness).sum) ((bottomStripData img).length)

/-- Dark-pixel ratio of the shoes region; its loop counts pixels with
brightness below `120` (not `100`). -/
def bottomDarkRatio (img : Image) : Option ℚ :=
  jsDiv (((bottomStripData img).countP fun p => decide (pixelBrightness p < 120)) : ℚ)
    ((bottomStripData img).length)

/-- Average brightness of the grooming region. -/
def topBrightness (img : Image) : Option ℚ :=
  jsDiv (((topStripData img).map pixelBrightness).sum) ((topStripData img).length)

/-- Dark-pixel ratio of the grooming region; its loop counts pixels with
brightness below `80` (not `100`). -/
def topDarkRatio (img : Image) : Option ℚ :=
  jsDiv (((topStripData img).countP fun p => decide (pixelBrightness p < 80)) : ℚ)
    ((topStripData img).length)

/-- `scoreShirt(stats)`: starts at 100, applies the four deduction chains,
clamps to `[0, 100]`. -/
def scoreShirt (stats : RegionStats) : ℤ :=
  max 0 (min 100 (100
    - (if jsLtI stats.avgBrightness 80 then 20
       else if jsGtI stats.avgBrightness 220 then 10 else 0)
    - (if jsGtI (colorVariation stats) 100 then 15
       else if jsGtI (colorVariation stats) 50 then 5 else 0)
    - (if jsGt stats.darkPixelRatio 0.4 then 20
       else if jsGt stats.darkPixelRatio 0.25 then 10 else 0)
    - (if jsLt stats.whitePixelRatio 0.05 then 15 else 0)))

/-- `scorePants(stats, img)`: brightness and dark ratio come from the
lower-half region, `colorVariation` from the full-image stats. -/
def scorePants (stats : RegionStats) (img : Image) : ℤ :=
  max 0 (min 100 (100
    - (if jsLt (lowerBrightness img) 50 || jsGt (lowerBrightness img) 160 then 25
       else if jsLt (lowerBrightness img) 60 || jsGt (lowerBrightness img) 150 then 10 else 0)
    - (if jsGtI (colorVariation stats) 80 then 15 else 0)
    - (if jsGt (lowerDarkRatio img) 0.5 then 15
       else if jsGt (lowerDarkRatio img) 0.3 then 8 else 0)))

/-- `scoreShoes(stats, img)`: brightness and dark ratio come from the
bottom strip, the overall brightness check from the full-image stats. -/
def scoreShoes (stats : RegionStats) (img : Image) : ℤ :=
  max 0 (min 100 (100
    - (if jsLt (bottomBrightness img) 40 || jsGt (bottomBrightness img) 180 then 30
       else if jsLt (bottomBrightness img) 50 || jsGt (bottomBrightness img) 160 then 15 else 0)
    - (if jsLt (bottomDarkRatio img) 0.2 then 25
       else if jsLt (bottomDarkRatio img) 0.35 then 10 else 0)
    - (if jsLtI stats.avgBrightness 70 then 10 else 0)))

/-- `scoreGrooming(stats, img)`: brightness and dark ratio come from the
top strip, `colorVariation` from the full-image stats. -/
def scoreGrooming (stats : RegionStats) (img : Image) : ℤ :=
  max 0 (min 100 (100
    - (if jsLt (topBrightness img) 90 then 20
       else if jsGt (topBrightness img) 230 then 10 else 0)
    - (if jsGt (topDarkRatio img) 0.4 then 25
       else if jsGt (topDarkRatio img) 0.25 then 10 else 0)
    - (if jsGtI (colorVariation stats) 120 then 15 else 0)))

/-- `scoreCleanliness(stats)`: uses the full-image stats only. -/
def scoreCleanliness (stats : RegionStats) : ℤ :=
  max 0 (min 100 (100
    - (if jsLtI stats.avgBrightness 100 then 25
       else if jsLtI stats.avgBrightness 120 then 10 else 0)
    - (if jsGt stats.darkPixelRatio 0.45 then 25
       else if jsGt stats.darkPixelRatio 0.35 then 15
       else if jsGt stats.darkPixelRatio 0.25 then 8 else 0)
    - (if jsLt stats.whitePixelRatio 0.1 then 15
       else if jsLt stats.whitePixelRatio 0.15 then 5 else 0)
    - (if jsLtI (colorVariation stats) 15 then 10 else 0)))

/-- The five component scores, keyed as in the source. -/
structure ComponentScores where
  shirt : ℤ
  pant : ℤ
  shoes : ℤ
  grooming : ℤ
  cleanliness : ℤ
deriving DecidableEq, Repr

/-- The five feedback strings, keyed as in the source. -/
structure ComponentFeedback where
  shirt : String
  pant : String
  shoes : String
  grooming : String
  cleanliness : String
deriving DecidableEq, Repr

/-- `getShirtFeedback(score)`. -/
def getShirtFeedback (score : ℤ) : String :=
  if score ≥ 90 then "✅ Shirt looks excellent. Clean, well-fitted, and properly worn."
  else if score ≥ 75 then "👍 Shirt is good. Consider pressing out any wrinkles."
  else if score ≥ 60 then "⚠️ Shirt needs attention. Ensure it\x27s clean and properly ironed."
  else if score ≥ 45 then "❌ Shirt needs improvement. Ensure proper fit and cleanliness."
  else "❌ Shirt does not meet standards. Replace or clean immediately."

/-- `getPantsFeedback(score)`. -/
def getPantsFeedback (score : ℤ) : String :=
  if score ≥ 90 then "✅ Pants are perfect. Neat, clean, and well-maintained."
  else if score ≥ 75 then "👍 Pants look good. Minor adjustments may help."
  else if score ≥ 60 then "⚠️ Pants need attention. Ensure they\x27re clean and wrinkle-free."
  else if score ≥ 45 then "❌ Pants need improvement. Ensure proper fit and cleanliness."
  else "❌ Pants do not meet standards. Replace or clean immediately."

/-- `getShoesFeedback(score)`. -/
def getShoesFeedback (score : ℤ) : String :=
  if score ≥ 90 then "✅ Shoes are excellent. Polished and well-maintained."
  else if score ≥ 75 then "👍 Shoes look good. Consider polishing for better shine."
  else if score ≥ 60 then "⚠️ Shoes need polishing. Ensure they\x27re clean and shiny."
  else if score ≥ 45 then "❌ Shoes need significant improvement. Polish and clean them."
  else "❌ Shoes do not meet standards. Replace or shine immediately."

/-- `getGroomingFeedback(score)`. -/
def getGroomingFeedback (score : ℤ) : String :=
  if score ≥ 90 then "✅ Grooming is excellent. Hair neat and well-groomed."
  else if score ≥ 75 then "👍 Grooming looks good. Minor tidying recommended."
  else if score ≥ 60 then "⚠️ Hair needs attention. Ensure it\x27s neat and tidy."
  else if score ≥ 45 then "❌ Hair needs significant grooming. Get a proper haircut."
  else "❌ Hair does not meet standards. Get groomed immediately."

/-- `getCleanlinesFeedback(score)` (the source spells it without the final
double s). -/
def getCleanlinesFeedback (score : ℤ) : String :=
  if score ≥ 90 then "✅ Overall cleanliness is excellent. Well-maintained uniform."
  else if score ≥ 75 then "👍 Uniform is clean. Keep maintaining this standard."
  else if score ≥ 60 then "⚠️ Uniform needs cleaning. Wash and maintain properly."
  else if score ≥ 45 then "❌ Uniform is dirty. Wash immediately."
  else "❌ Uniform does not meet cleanliness standards. Major cleaning needed."

/-- `generateFeedback(scores)`. -/
def generateFeedback (scores : ComponentScores) : ComponentFeedback :=
  { shirt := getShirtFeedback scores.shirt
    pant := getPantsFeedback scores.pant
    shoes := getShoesFeedback scores.shoes
    grooming := getGroomingFeedback scores.grooming
    cleanliness := getCleanlinesFeedback scores.cleanliness }

/-- Descending search for the binade of `q`: the largest exponent
`e' ≤ e` with `2 ^ e' ≤ q`, with enough fuel that the search never runs
out on the values occurring in a grading computation. -/
def expDown : ℕ → ℚ → ℤ → ℤ
  | 0, _, e => e
  | f + 1, q, e => if (2 : ℚ) ^ e ≤ q then e else expDown f q (e - 1)

/-- Binade exponent `⌊log₂ q⌋` for `q ∈ [2^(-60), 2^61)`, the range that
covers every number appearing in the final-score computation. -/
def floorLog2 (q : ℚ) : ℤ :=
  expDown 121 q 60

/-- A positive rational scaled into the mantissa range `[2 ^ 52, 2 ^ 53)`
of its own binade. -/
def flScaled (q : ℚ) : ℚ :=
  q * (2 : ℚ) ^ (52 - floorLog2 q)

/-- The 53-bit mantissa of the double nearest a positive rational: the
scaled value rounded to the nearest integer, ties to the even
neighbour. -/
def flMantissa (q : ℚ) : ℤ :=
  if (1 : ℚ) / 2 < flScaled q - ⌊flScaled q⌋ then ⌊flScaled q⌋ + 1
  else if flScaled q - ⌊flScaled q⌋ < (1 : ℚ) / 2 then ⌊flScaled q⌋
  else if ⌊flScaled q⌋ % 2 = 0 then ⌊flScaled q⌋ else ⌊flScaled q⌋ + 1

/-- Rounding of an exact rational to the nearest IEEE-754 binary64 value
(53 significant bits, ties to even mantissa), restricted to the normal
nonnegative range used by the grading computation.  Every JavaScript
arithmetic result is the correctly rounded exact result, so composing
exact rational operations with `fl` models double arithmetic bit-exactly
away from overflow and subnormals. -/
def fl (q : ℚ) : ℚ :=
  if q ≤ 0 then 0
  else (flMantissa q : ℚ) * (2 : ℚ) ^ (floorLog2 q - 52)

/-- Double-precision multiplication: round the exact product. -/
def jsMul (x y : ℚ) : ℚ :=
  fl (x * y)

/-- Double-precision addition: round the exact sum. -/
def jsAdd (x y : ℚ) : ℚ :=
  fl (x + y)

/-- The letter-grade chain at the end of `calculateFinalGrade`. -/
def letterGradeOf (finalScore : ℤ) : Grade :=
  if finalScore ≥ 85 then Grade.A
  else if finalScore ≥ 70 then Grade.B
  else if finalScore ≥ 60 then Grade.C
  else if finalScore ≥ 50 then Grade.D
  else Grade.F

/-- `calculateFinalGrade(scores)`: `Math.round` of the weighted sum with
weights `0.25, 0.25, 0.2, 0.15, 0.15`, evaluated left to right in double
precision (`fl` of each literal is the double the JavaScript literal
denotes), then the letter-grade chain. -/
def calculateFinalGrade (scores : ComponentScores) : ℤ × Grade :=
  let finalScore := jsMathRound
    (jsAdd (jsAdd (jsAdd (jsAdd
      (jsMul (scores.shirt : ℚ) (fl 0.25))
      (jsMul (scores.pant : ℚ) (fl 0.25)))
      (jsMul (scores.shoes : ℚ) (fl 0.2)))
      (jsMul (scores.grooming : ℚ) (fl 0.15)))
      (jsMul (scores.cleanliness : ℚ) (fl 0.15)))
  (finalScore, letterGradeOf finalScore)

/-- The result object resolved by `analyzeUniform`. -/
structure GradingResult where
  score : ℤ
  grade : Grade
  breakdown : ComponentScores
  feedback : ComponentFeedback
deriving DecidableEq, Repr

/-- `getDefaultGrade()`: the fixed fallback result. -/
def getDefaultGrade : GradingResult :=
  { score := 50
    grade := Grade.D
    breakdown :=
      { shirt := 50, pant := 50, shoes := 50, grooming := 50, cleanliness := 50 }
    feedback :=
      { shirt := "Please upload a clear photo of your uniform."
        pant := "Please upload a clear photo of your uniform."
        shoes := "Please upload a clear photo of your uniform."
        grooming := "Please upload a clear photo of your uniform."
        cleanliness := "Please upload a clear photo of your uniform." } }

/-- `analyzeImageProperties(img)`: full-image stats feed all five scorers;
the region-based scorers additionally re-read their own region. -/
def analyzeImageProperties (img : Image) : ComponentScores :=
  let stats := calculateImageStats img.flatten
  { shirt := scoreShirt stats
    pant := scorePants stats img
    shoes := scoreShoes stats img
    grooming := scoreGrooming stats img
    cleanliness := scoreCleanliness stats }

/-- `analyzeUniform(imageDataUrl)`: the decode boundary is modelled by an
`Option Image`; `none` is the `img.onerror` path, which resolves with
`getDefaultGrade()` instead of raising. -/
def analyzeUniform : Option Image → GradingResult
  | none => getDefaultGrade
  | some img =>
    let scores := analyzeImageProperties img
    { score := (calculateFinalGrade scores).1
      grade := (calculateFinalGrade scores).2
      breakdown := scores
      feedback := generateFeedback scores }

/-- Dark-pixel ratio as claimed by the spec for every region:
`count(brightness < 100) / pixelCount`.  Kept separate from the source
translation so the two can be compared. -/
def claimedDarkPixelRatio (data : List RGBA) : Option ℚ :=
  jsDiv ((data.countP fun p => decide (pixelBrightness p < 100)) : ℚ) data.length

/-- The lower half as claimed by the spec for the pants region: rows
`[⌊H/2⌋, H)`.  Kept separate from the source translation so the two can
be compared. -/
def claimedLowerHalf (img : Image) : List RGBA :=
  (img.drop (img.length / 2)).flatten

/-- The five feedback tiers named by the spec. -/
inductive FeedbackTier
  | excellent | good | needsAttention | needsImprovement | belowStandards
deriving DecidableEq, Repr

/-- Tier assignment as claimed by the spec, identical cutoffs for every
component: `≥90, ≥75, ≥60, ≥45`, else the bottom tier. -/
def claimedTier (score : ℤ) : FeedbackTier :=
  if score ≥ 90 then FeedbackTier.excellent
  else if score ≥ 75 then FeedbackTier.good
  else if score ≥ 60 then FeedbackTier.needsAttention
  else if score ≥ 45 then FeedbackTier.needsImprovement
  else FeedbackTier.belowStandards

/-- The shirt message of each tier. -/
def shirtTierText : FeedbackTier → String
  | FeedbackTier.excellent => "✅ Shirt looks excellent. Clean, well-fitted, and properly worn."
  | FeedbackTier.good => "👍 Shirt is good. Consider pressing out any wrinkles."
  | FeedbackTier.needsAttention => "⚠️ Shirt needs attention. Ensure it\x27s clean and properly ironed."
  | FeedbackTier.needsImprovement => "❌ Shirt needs improvement. Ensure proper fit and cleanliness."
  | FeedbackTier.belowStandards => "❌ Shirt does not meet standards. Replace or clean immediately."

/-- The pants message of each tier. -/
def pantsTierText : FeedbackTier → String
  | FeedbackTier.excellent => "✅ Pants are perfect. Neat, clean, and well-maintained."
  | FeedbackTier.good => "👍 Pants look good. Minor adjustments may help."
  | FeedbackTier.needsAttention => "⚠️ Pants need attention. Ensure they\x27re clean and wrinkle-free."
  | FeedbackTier.needsImprovement => "❌ Pants need improvement. Ensure proper fit and cleanliness."
  | FeedbackTier.belowStandards => "❌ Pants do not meet standards. Replace or clean immediately."

/-- The shoes message of each tier. -/
def shoesTierText : FeedbackTier → String
  | FeedbackTier.excellent => "✅ Shoes are excellent. Polished and well-maintained."
  | FeedbackTier.good => "👍 Shoes look good. Consider polishing for better shine."
  | FeedbackTier.needsAttention => "⚠️ Shoes need polishing. Ensure they\x27re clean and shiny."
  | FeedbackTier.needsImprovement => "❌ Shoes need significant improvement. Polish and clean them."
  | FeedbackTier.belowStandards => "❌ Shoes do not meet standards. Replace or shine immediately."

/-- The grooming message of each tier. -/
def groomingTierText : FeedbackTier → String
  | FeedbackTier.excellent => "✅ Grooming is excellent. Hair neat and well-groomed."
  | FeedbackTier.good => "👍 Grooming looks good. Minor tidying recommended."
  | FeedbackTier.needsAttention => "⚠️ Hair needs attention. Ensure it\x27s neat and tidy."
  | FeedbackTier.needsImprovement => "❌ Hair needs significant grooming. Get a proper haircut."
  | FeedbackTier.belowStandards => "❌ Hair does not meet standards. Get groomed immediately."

/-- The cleanliness message of each tier. -/
def cleanlinessTierText : FeedbackTier → String
  | FeedbackTier.excellent => "✅ Overall cleanliness is excellent. Well-maintained uniform."
  | FeedbackTier.good => "👍 Uniform is clean. Keep maintaining this standard."
  | FeedbackTier.needsAttention => "⚠️ Uniform needs cleaning. Wash and maintain properly."
  | FeedbackTier.needsImprovement => "❌ Uniform is dirty. Wash immediately."
  | FeedbackTier.belowStandards => "❌ Uniform does not meet cleanliness standards. Major cleaning needed."

/-- A mid-gray pixel with `R = G = B = 150`. -/
def grayPixel : RGBA :=
  { r := 150, g := 150, b := 150, a := 255 }

/-- A 1-pixel-wide, 7-row image whose bottom row is a gray of brightness
110: bright enough to clear the documented dark threshold 100, dark
enough to be counted by the shoes loop threshold 120. -/
def stripedImage7 : Image :=
  [[{ r := 200, g := 200, b := 200, a := 255 }],
   [{ r := 200, g := 200, b := 200, a := 255 }],
   [{ r := 200, g := 200, b := 200, a := 255 }],
   [{ r := 200, g := 200, b := 200, a := 255 }],
   [{ r := 200, g := 200, b := 200, a := 255 }],
   [{ r := 200, g := 200, b := 200, a := 255 }],
   [{ r := 110, g := 110, b := 110, a := 255 }]]

/-- A 1-pixel-wide, 5-row image with rows tagged by their red channel. -/
def rampImage5 : Image :=
  [[{ r := 0, g := 0, b := 0, a := 255 }],
   [{ r := 1, g := 0, b := 0, a := 255 }],
   [{ r := 2, g := 0, b := 0, a := 255 }],
   [{ r := 3, g := 0, b := 0, a := 255 }],
   [{ r := 4, g := 0, b := 0, a := 255 }]]

/-- A 1-pixel-wide, 2-row (even-height) image. -/
def rampImage2 : Image :=
  [[{ r := 5, g := 0, b := 0, a := 255 }],
   [{ r := 6, g := 0, b := 0, a := 255 }]]

/-- Range of the shirt scorer: deductions total at most `70`, and the
result is clamped above by `100`. -/
theorem scoreShirt_range (stats : RegionStats) :
    30 ≤ scoreShirt stats ∧ scoreShirt stats ≤ 100 := by
  unfold scoreShirt
  split_ifs <;> omega

/-- Range of the pants scorer: deductions total at most `55`. -/
theorem scorePants_range (stats : RegionStats) (img : Image) :
    45 ≤ scorePants stats img ∧ scorePants stats img ≤ 100 := by
  unfold scorePants
  split_ifs <;> omega

/-- Range of the shoes scorer: deductions total at most `65`. -/
theorem scoreShoes_range (stats : RegionStats) (img : Image) :
    35 ≤ scoreShoes stats img ∧ scoreShoes stats img ≤ 100 := by
  unfold scoreShoes
  split_ifs <;> omega

/-- Range of the grooming scorer: deductions total at most `60`. -/
theorem scoreGrooming_range (stats : RegionStats) (img : Image) :
    40 ≤ scoreGrooming stats img ∧ scoreGrooming stats img ≤ 100 := by
  unfold scoreGrooming
  split_ifs <;> omega

/-- Range of the cleanliness scorer: deductions total at most `75`. -/
theorem scoreCleanliness_range (stats : RegionStats) :
    25 ≤ scoreCleanliness stats ∧ scoreCleanliness stats ≤ 100 := by
  unfold scoreCleanliness
  split_ifs <;> omega

/-- C2: the letter grade follows the fixed cutoff table evaluated
high-to-low, first match wins (`≥85 → A`, `≥70 → B`, `≥60 → C`,
`≥50 → D`, else `F`), the grade returned by `calculateFinalGrade` is this
function of its final score, and the boundary values map as claimed. -/
theorem letterGrade_cutoff_table :
    (∀ s : ComponentScores,
      (calculateFinalGrade s).2 = letterGradeOf (calculateFinalGrade s).1) ∧
    (∀ n : ℤ, 85 ≤ n → letterGradeOf n = Grade.A) ∧
    (∀ n : ℤ, 70 ≤ n → n < 85 → letterGradeOf n = Grade.B) ∧
    (∀ n : ℤ, 60 ≤ n → n < 70 → letterGradeOf n = Grade.C) ∧
    (∀ n : ℤ, 50 ≤ n → n < 60 → letterGradeOf n = Grade.D) ∧
    (∀ n : ℤ, n < 50 → letterGradeOf n = Grade.F) ∧
    letterGradeOf 85 = Grade.A ∧ letterGradeOf 84 = Grade.B ∧
    letterGradeOf 70 = Grade.B ∧ letterGradeOf 69 = Grade.C ∧
    letterGradeOf 60 = Grade.C ∧ letterGradeOf 59 = Grade.D ∧
    letterGradeOf 50 = Grade.D ∧ letterGradeOf 49 = Grade.F := by
  refine ⟨fun s => rfl, fun n h => ?_, fun n h h' => ?_, fun n h h' => ?_,
    fun n h h' => ?_, fun n h => ?_, by decide, by decide, by decide, by decide,
    by decide, by decide, by decide, by decide⟩ <;>
    (unfold letterGradeOf; split_ifs <;> first | rfl | omega)

/-- Witness for `letterGrade_cutoff_table` at the boundary input `85`. -/
theorem letterGrade_cutoff_table_witness : letterGradeOf 85 = Grade.A :=
  letterGrade_cutoff_table.2.1 85 (by decide)

/-- C3: every component scorer returns an integer in `[0, 100]`, for every
statistics record and every image. -/
theorem componentScores_within_bounds (stats : RegionStats) (img : Image) :
    (0 ≤ scoreShirt stats ∧ scoreShirt stats ≤ 100) ∧
    (0 ≤ scorePants stats img ∧ scorePants stats img ≤ 100) ∧
    (0 ≤ scoreShoes stats img ∧ scoreShoes stats img ≤ 100) ∧
    (0 ≤ scoreGrooming stats img ∧ scoreGrooming stats img ≤ 100) ∧
    (0 ≤ scoreCleanliness stats ∧ scoreCleanliness stats ≤ 100) := by
  have h1 := scoreShirt_range stats
  have h2 := scorePants_range stats img
  have h3 := scoreShoes_range stats img
  have h4 := scoreGrooming_range stats img
  have h5 := scoreCleanliness_range stats
  omega

/-- C10: no component scorer can go below `25`: the mutually exclusive
deduction chains cap the total deduction at `70` (shirt), `55` (pants),
`65` (shoes), `60` (grooming) and `75` (cleanliness), so the lower clamp
at `0` is never attained. -/
theorem componentScores_lower_bounds (stats : RegionStats) (img : Image) :
    25 ≤ scoreShirt stats ∧ 25 ≤ scorePants stats img ∧
    25 ≤ scoreShoes stats img ∧ 25 ≤ scoreGrooming stats img ∧
    25 ≤ scoreCleanliness stats ∧
    30 ≤ scoreShirt stats ∧ 45 ≤ scorePants stats img ∧
    35 ≤ scoreShoes stats img ∧ 40 ≤ scoreGrooming stats img := by
  have h1 := scoreShirt_range stats
  have h2 := scorePants_range stats img
  have h3 := scoreShoes_range stats img
  have h4 := scoreGrooming_range stats img
  have h5 := scoreCleanliness_range stats
  omega

/-- C5: the decode-failure path of `analyzeUniform` resolves with the
fixed default result instead of raising: all five component scores `50`,
final score `50`, grade `D`, and the same generic message for each of the
five components. -/
theorem decodeFailure_default_result :
    analyzeUniform none = getDefaultGrade ∧
    getDefaultGrade.score = 50 ∧
    getDefaultGrade.grade = Grade.D ∧
    getDefaultGrade.breakdown =
      { shirt := 50, pant := 50, shoes := 50, grooming := 50, cleanliness := 50 } ∧
    getDefaultGrade.feedback.shirt = "Please upload a clear photo of your uniform." ∧
    getDefaultGrade.feedback.pant = getDefaultGrade.feedback.shirt ∧
    getDefaultGrade.feedback.shoes = getDefaultGrade.feedback.shirt ∧
    getDefaultGrade.feedback.grooming = getDefaultGrade.feedback.shirt ∧
    getDefaultGrade.feedback.cleanliness = getDefaultGrade.feedback.shirt := by
  decide

/-- C9: every feedback function maps its score through the same five-tier
cutoff table (`≥90`, `≥75`, `≥60`, `≥45`, else the bottom tier) into its
fixed component-specific message, and every message is non-empty. -/
theorem feedback_fixed_tiers (score : ℤ) :
    getShirtFeedback score = shirtTierText (claimedTier score) ∧
    getPantsFeedback score = pantsTierText (claimedTier score) ∧
    getShoesFeedback score = shoesTierText (claimedTier score) ∧
    getGroomingFeedback score = groomingTierText (claimedTier score) ∧
    getCleanlinesFeedback score = cleanlinessTierText (claimedTier score) ∧
    getShirtFeedback score ≠ "" ∧ getPantsFeedback score ≠ "" ∧
    getShoesFeedback score ≠ "" ∧ getGroomingFeedback score ≠ "" ∧
    getCleanlinesFeedback score ≠ "" := by
  unfold getShirtFeedback getPantsFeedback getShoesFeedback getGroomingFeedback
    getCleanlinesFeedback claimedTier
  split_ifs <;>
    exact ⟨rfl, rfl, rfl, rfl, rfl, by decide, by decide, by decide, by decide, by decide⟩

/-- C6 counterexample: on an empty pixel buffer the statistics are not
zero-valued; the `0 / 0` divisions produce `NaN` (`none`), in particular
the dark-pixel ratio is not `0`. -/
theorem emptyRegion_zeroStats_counterexample :
    (calculateImageStats []).darkPixelRatio = none ∧
    ¬ (calculateImageStats []).darkPixelRatio = some 0 ∧
    ¬ (calculateImageStats []).avgBrightness = some 0 := by
  decide

/-- C6 (amended): for an empty region no error is raised, but every field
of the statistics is `NaN` (the `0 / 0` divisions) rather than zero;
downstream scoring still runs, with every `NaN` comparison false, so the
scorers apply no deductions at all (e.g. shirt and cleanliness score
`100`). -/
theorem emptyRegion_stats_nan :
    calculateImageStats [] =
      { avgRed := none, avgGreen := none, avgBlue := none, avgBrightness := none,
        darkPixelRatio := none, whitePixelRatio := none } ∧
    scoreShirt (calculateImageStats []) = 100 ∧
    scoreCleanliness (calculateImageStats []) = 100 := by
  decide

/-- C4 counterexample: the dark-pixel ratio consumed by `scoreShoes` does
not use the threshold `100`: on a bottom strip consisting of one pixel of
brightness `110` the shoes loop counts it dark (ratio `1`), while the
claimed `count(brightness < 100) / pixelCount` is `0`. -/
theorem shoesDarkThreshold_counterexample :
    bottomDarkRatio stripedImage7 = some 1 ∧
    claimedDarkPixelRatio (bottomStripData stripedImage7) = some 0 ∧
    bottomDarkRatio stripedImage7 ≠ claimedDarkPixelRatio (bottomStripData stripedImage7) := by
  decide

/-- C4 (amended): the full-image statistics and the pants region use the
dark threshold `100` as claimed, but the shoes region counts pixels with
brightness `< 120` and the grooming region counts pixels with brightness
`< 80`; in each case the ratio is the matching-pixel count over the
region's pixel count. -/
theorem regionDarkRatio_thresholds (data : List RGBA) (img : Image) :
    (calculateImageStats data).darkPixelRatio = claimedDarkPixelRatio data ∧
    lowerDarkRatio img = claimedDarkPixelRatio (lowerHalfData img) ∧
    bottomDarkRatio img =
      jsDiv (((bottomStripData img).filter fun p => decide (pixelBrightness p < 120)).length : ℚ)
        ((bottomStripData img).length) ∧
    topDarkRatio img =
      jsDiv (((topStripData img).filter fun p => decide (pixelBrightness p < 80)).length : ℚ)
        ((topStripData img).length) := by
  refine ⟨rfl, rfl, ?_, ?_⟩ <;>
    simp [bottomDarkRatio, topDarkRatio, List.countP_eq_length_filter]

/-- C7 counterexample: for an odd height the pants region is not the lower
half `[⌊H/2⌋, H)`: at height `5` the code reads rows `2` and `3` only,
leaving out the bottom row. -/
theorem lowerHalf_oddHeight_counterexample :
    lowerHalfData rampImage5 =
      [{ r := 2, g := 0, b := 0, a := 255 }, { r := 3, g := 0, b := 0, a := 255 }] ∧
    claimedLowerHalf rampImage5 =
      [{ r := 2, g := 0, b := 0, a := 255 }, { r := 3, g := 0, b := 0, a := 255 },
       { r := 4, g := 0, b := 0, a := 255 }] ∧
    lowerHalfData rampImage5 ≠ claimedLowerHalf rampImage5 := by
  decide

/-- C7 (amended): the pants region is rows `[⌊H/2⌋, ⌊H/2⌋ + ⌊H/2⌋)`, which
equals the claimed lower half `[⌊H/2⌋, H)` exactly when the height is
even; the shoes region is the bottom strip of height `⌊0.15·H⌋` and the
grooming region is the top strip `[0, ⌊0.30·H⌋)` as claimed, every
boundary computed with integer floor. -/
theorem samplingRegion_geometry (img : Image) :
    lowerHalfData img = ((img.drop (img.length / 2)).take (img.length / 2)).flatten ∧
    (img.length % 2 = 0 → lowerHalfData img = claimedLowerHalf img) ∧
    bottomStripData img =
      ((img.drop (img.length - 3 * img.length / 20)).take (3 * img.length / 20)).flatten ∧
    topStripData img = (img.take (3 * img.length / 10)).flatten := by
  refine ⟨rfl, ?_, rfl, ?_⟩
  · intro heven
    unfold lowerHalfData claimedLowerHalf getImageRows
    rw [List.take_of_length_le]
    rw [List.length_drop]
    omega
  · unfold topStripData getImageRows
    rw [List.drop_zero]

/-- Witness for `samplingRegion_geometry`: at the even height `2` the
pants region is exactly the claimed lower half. -/
theorem samplingRegion_geometry_witness :
    lowerHalfData rampImage2 = claimedLowerHalf rampImage2 :=
  (samplingRegion_geometry rampImage2).2.1 (by decide)

/-- Counting over a constant list: all of it or none of it. -/
theorem countP_replicate_eq (p : RGBA → Bool) (x : RGBA) (n : ℕ) :
    (List.replicate n x).countP p = if p x then n else 0 := by
  induction n with
  | zero => simp
  | succ n ih =>
    rw [List.replicate_succ, List.countP_cons, ih]
    by_cases h : p x <;> simp [h]

/-- Full-image statistics of a uniformly mid-gray image of any positive
size: all averages `150`, no dark pixels, no white pixels. -/
theorem calculateImageStats_replicate_gray (n : ℕ) (hn : 0 < n) :
    calculateImageStats (List.replicate n grayPixel) =
      { avgRed := some 150, avgGreen := some 150, avgBlue := some 150,
        avgBrightness := some 150, darkPixelRatio := some 0, whitePixelRatio := some 0 } := by
  have hne : ((n : ℚ)) ≠ 0 := Nat.cast_ne_zero.mpr hn.ne'
  have hb : pixelBrightness grayPixel = 150 := by norm_num [pixelBrightness, grayPixel]
  have hd : (decide ((150 : ℚ) < 100)) = false := by decide
  have hw : (decide ((150 : ℚ) > 200)) = false := by decide
  have hr : ((grayPixel.r : ℚ)) = 150 := by norm_num [grayPixel]
  have hg : ((grayPixel.g : ℚ)) = 150 := by norm_num [grayPixel]
  have hbl : ((grayPixel.b : ℚ)) = 150 := by norm_num [grayPixel]
  have havg : jsDiv (n • (150 : ℚ)) (n : ℚ) = some 150 := by
    rw [jsDiv, if_neg hne, nsmul_eq_mul, mul_comm, mul_div_assoc, div_self hne, mul_one]
  have hzero : jsDiv (0 : ℚ) (n : ℚ) = some 0 := by
    rw [jsDiv, if_neg hne]
    norm_num
  have hround : jsMathRound 150 = 150 := by decide
  unfold calculateImageStats
  simp only [List.map_replicate, List.length_replicate, countP_replicate_eq, hd, hw,
    Bool.false_eq_true, if_false, hr, hg, hbl, hb, List.sum_replicate, Nat.cast_zero,
    havg, hzero, Option.map_some', hround]

/-- C8 counterexample: a uniformly mid-gray image (`R = G = B = 150`)
scores `75` on cleanliness, not `90`: with no white pixels the
`whitePixelRatio < 0.1` deduction of `15` fires in addition to the
`colorVariation < 15` deduction of `10` that the claim accounts for. -/
theorem grayImage_cleanliness_counterexample :
    scoreCleanliness (calculateImageStats (List.replicate 4 grayPixel)) = 75 ∧
    (75 : ℤ) ≠ 90 := by
  decide

/-- C8 (amended): for every positive-size uniformly mid-gray image the
cleanliness score is `75`: no brightness deduction (`avgBrightness = 150 ≥
120`), no dark-ratio deduction, but `−15` for `whitePixelRatio = 0 < 0.1`
and `−10` for `colorVariation = 0 < 15`. -/
theorem grayImage_cleanliness_score (n : ℕ) (hn : 0 < n) :
    scoreCleanliness (calculateImageStats (List.replicate n grayPixel)) = 75 := by
  rw [calculateImageStats_replicate_gray n hn]
  decide

/-- Witness for `grayImage_cleanliness_score` at size `2`. -/
theorem grayImage_cleanliness_score_witness :
    scoreCleanliness (calculateImageStats (List.replicate 2 grayPixel)) = 75 :=
  grayImage_cleanliness_score 2 (by decide)

/-- The fuel-indexed exponent search either exhausts its fuel or returns
an exponent whose power does not exceed `q`, without overshooting the
starting exponent. -/
theorem expDown_cases (f : ℕ) :
    ∀ (e : ℤ) (q : ℚ), expDown f q e = e - f ∨
      ((2 : ℚ) ^ expDown f q e ≤ q ∧ expDown f q e ≤ e) := by
  induction f with
  | zero =>
    intro e q
    left
    simp [expDown]
  | succ f ih =>
    intro e q
    simp only [expDown]
    split_ifs with h
    · exact Or.inr ⟨h, le_refl e⟩
    · rcases ih (e - 1) q with h' | ⟨h1, h2⟩
      · left
        rw [h']
        push_cast
        ring
      · exact Or.inr ⟨h1, by omega⟩

/-- For `q ≤ 512` the binade search never returns an exponent above `9`. -/
theorem floorLog2_le_nine {q : ℚ} (h512 : q ≤ 512) : floorLog2 q ≤ 9 := by
  unfold floorLog2
  rcases expDown_cases 121 60 q with h | ⟨h1, _⟩
  · omega
  · by_contra hc
    push_neg at hc
    have h2 : (2 : ℚ) ^ (10 : ℤ) ≤ (2 : ℚ) ^ expDown 121 q 60 :=
      zpow_le_zpow_right₀ one_le_two (by omega)
    have h3 : (2 : ℚ) ^ (10 : ℤ) = 1024 := by norm_num
    linarith

/-- The rounded mantissa is within half a unit of the scaled value. -/
theorem flMantissa_close (q : ℚ) :
    |((flMantissa q : ℚ)) - flScaled q| ≤ 1 / 2 := by
  unfold flMantissa
  set m : ℚ := flScaled q with hm
  have h0 : (0 : ℚ) ≤ m - ⌊m⌋ := by
    have := Int.floor_le m
    linarith
  have h1 : m - ⌊m⌋ < 1 := by
    have := Int.lt_floor_add_one m
    linarith
  split_ifs with ha hb hc <;>
    (rw [abs_le]; push_cast; constructor <;> linarith)

/-- The rounded mantissa of a positive value is nonnegative. -/
theorem flMantissa_nonneg {q : ℚ} (hq : 0 < q) : 0 ≤ flMantissa q := by
  unfold flMantissa
  have hm0 : (0 : ℚ) ≤ flScaled q := by
    unfold flScaled
    positivity
  have hf := Int.floor_nonneg.mpr hm0
  split_ifs <;> omega

/-- Rounding to a double never produces a negative value from a
nonnegative one. -/
theorem fl_nonneg (q : ℚ) : 0 ≤ fl q := by
  unfold fl
  split_ifs with h
  · exact le_refl 0
  · push_neg at h
    exact mul_nonneg (Int.cast_nonneg.mpr (flMantissa_nonneg h))
      (le_of_lt (zpow_pos (by norm_num) _))

/-- Absolute rounding error of `fl` on `[0, 512]`: at most `2 ^ (-44)`,
bounded here by `1 / 2 ^ 43`. -/
theorem fl_err {q : ℚ} (h0 : 0 ≤ q) (h512 : q ≤ 512) :
    |fl q - q| ≤ 1 / 2 ^ 43 := by
  rcases eq_or_lt_of_le h0 with h | hq
  · rw [← h]
    norm_num [fl]
  · have hnle : ¬ q ≤ 0 := not_le.mpr hq
    have hee : floorLog2 q ≤ 9 := floorLog2_le_nine h512
    have hclose := flMantissa_close q
    have hzpos : (0 : ℚ) < (2 : ℚ) ^ (floorLog2 q - 52) := zpow_pos (by norm_num) _
    have hq_eq : flScaled q * (2 : ℚ) ^ (floorLog2 q - 52) = q := by
      rw [flScaled, mul_assoc, ← zpow_add₀ (by norm_num : (2 : ℚ) ≠ 0),
        show (52 - floorLog2 q) + (floorLog2 q - 52) = 0 by ring, zpow_zero, mul_one]
    have hsplit : fl q - q =
        ((flMantissa q : ℚ) - flScaled q) * (2 : ℚ) ^ (floorLog2 q - 52) := by
      rw [fl, if_neg hnle, sub_mul, hq_eq]
    rw [hsplit, abs_mul, abs_of_pos hzpos]
    have hmono : (2 : ℚ) ^ (floorLog2 q - 52) ≤ (2 : ℚ) ^ ((9 : ℤ) - 52) :=
      zpow_le_zpow_right₀ one_le_two (by omega)
    have hval : (2 : ℚ) ^ ((9 : ℤ) - 52) = 1 / 2 ^ 43 := by
      rw [show ((9 : ℤ) - 52) = -(43 : ℤ) by norm_num, zpow_neg]
      norm_num
    calc |(flMantissa q : ℚ) - flScaled q| * (2 : ℚ) ^ (floorLog2 q - 52)
        ≤ (1 / 2) * ((2 : ℚ) ^ ((9 : ℤ) - 52)) :=
          mul_le_mul hclose hmono (le_of_lt hzpos) (by norm_num)
      _ ≤ 1 / 2 ^ 43 := by rw [hval]; norm_num

/-- Error of a double multiplication of an integer score in `[0, 100]` by
an approximated weight: within `102 / 2 ^ 43` of the exact product, and
the product stays in `[0, 27]`. -/
theorem jsMul_weight_err {a w c : ℚ} (ha0 : 0 ≤ a) (ha : a ≤ 100)
    (hw0 : 0 ≤ w) (hwc : |w - c| ≤ 1 / 2 ^ 43) (hc : c ≤ 1 / 4) :
    |jsMul a w - a * c| ≤ 102 / 2 ^ 43 ∧ 0 ≤ jsMul a w ∧ jsMul a w ≤ 27 := by
  have hwc' := abs_le.mp hwc
  have hw1 : w ≤ 1 := by linarith
  have harg0 : 0 ≤ a * w := mul_nonneg ha0 hw0
  have hawb : a * w ≤ 100 * 1 := mul_le_mul ha hw1 hw0 (by norm_num)
  have harg : a * w ≤ 512 := by linarith
  have hfl := fl_err harg0 harg
  have hfl' := abs_le.mp hfl
  refine ⟨?_, fl_nonneg _, ?_⟩
  · have hmul : |a * w - a * c| = a * |w - c| := by
      rw [← mul_sub, abs_mul, abs_of_nonneg ha0]
    have hwt : a * |w - c| ≤ 100 * (1 / 2 ^ 43) :=
      mul_le_mul ha hwc (abs_nonneg _) (by norm_num)
    calc |jsMul a w - a * c|
        ≤ |fl (a * w) - a * w| + |a * w - a * c| := abs_sub_le _ _ _
      _ ≤ 1 / 2 ^ 43 + 100 * (1 / 2 ^ 43) := by
          rw [hmul]
          exact add_le_add hfl hwt
      _ ≤ 102 / 2 ^ 43 := by norm_num
  · have hawc : a * w ≤ 100 * (1 / 4 + 1 / 2 ^ 43) :=
      mul_le_mul ha (by linarith) hw0 (by norm_num)
    have : fl (a * w) ≤ a * w + 1 / 2 ^ 43 := by linarith [hfl'.2]
    show fl (a * w) ≤ 27
    linarith

/-- Error of a double addition of two nonnegative accumulands: the errors
add, plus one rounding of the sum. -/
theorem jsAdd_acc_err {x y ex ey dx dy : ℚ} (hx0 : 0 ≤ x) (hy0 : 0 ≤ y)
    (hx : x ≤ 250) (hy : y ≤ 250) (hxe : |x - ex| ≤ dx) (hye : |y - ey| ≤ dy) :
    |jsAdd x y - (ex + ey)| ≤ dx + dy + 1 / 2 ^ 43 ∧ 0 ≤ jsAdd x y ∧
      jsAdd x y ≤ x + y + 1 / 2 ^ 43 := by
  have harg0 : 0 ≤ x + y := add_nonneg hx0 hy0
  have harg : x + y ≤ 512 := by linarith
  have hfl' := abs_le.mp (fl_err harg0 harg)
  have h1 := abs_le.mp hxe
  have h2 := abs_le.mp hye
  refine ⟨?_, fl_nonneg _, ?_⟩
  · rw [abs_le]
    unfold jsAdd
    constructor <;> linarith [hfl'.1, hfl'.2]
  · show fl (x + y) ≤ x + y + 1 / 2 ^ 43
    linarith [hfl'.2]

set_option maxRecDepth 100000 in
/-- C1 counterexample: at component scores `(45, 45, 47, 47, 77)` the
exact weighted sum is `50.5`, whose half-up rounding is `51`, but the
double-precision evaluation of the source computes `50.49999999999999`
and `Math.round` returns `50`. -/
theorem finalScore_fp_tie_counterexample :
    (calculateFinalGrade ⟨45, 45, 47, 47, 77⟩).1 = 50 ∧
    round (((45 : ℤ) : ℚ) * 0.25 + ((45 : ℤ) : ℚ) * 0.25 + ((47 : ℤ) : ℚ) * 0.2 +
      ((47 : ℤ) : ℚ) * 0.15 + ((77 : ℤ) : ℚ) * 0.15) = 51 ∧
    (50 : ℤ) ≠ 51 := by
  decide

/-- C1 (amended): for component scores in `[0, 100]` whose exact weighted
sum is not a half-integer tie (`25·shirt + 25·pant + 20·shoes +
15·grooming + 15·cleanliness ≢ 50 (mod 100)`), the final score equals
`round` of the exact weighted sum, and the weights sum to `1`; at a tie
the double-precision evaluation may round one lower. -/
theorem finalScore_rounds_weighted_sum (s : ComponentScores)
    (hs : 0 ≤ s.shirt ∧ s.shirt ≤ 100 ∧ 0 ≤ s.pant ∧ s.pant ≤ 100 ∧
      0 ≤ s.shoes ∧ s.shoes ≤ 100 ∧ 0 ≤ s.grooming ∧ s.grooming ≤ 100 ∧
      0 ≤ s.cleanliness ∧ s.cleanliness ≤ 100)
    (ht : (25 * s.shirt + 25 * s.pant + 20 * s.shoes + 15 * s.grooming +
        15 * s.cleanliness) % 100 ≠ 50) :
    (calculateFinalGrade s).1 =
      round ((s.shirt : ℚ) * 0.25 + (s.pant : ℚ) * 0.25 + (s.shoes : ℚ) * 0.2 +
        (s.grooming : ℚ) * 0.15 + (s.cleanliness : ℚ) * 0.15) ∧
    (0.25 : ℚ) + 0.25 + 0.2 + 0.15 + 0.15 = 1 := by
  obtain ⟨h1, h2, h3, h4, h5, h6, h7, h8, h9, h10⟩ := hs
  refine ⟨?_, by norm_num⟩
  have c10 : (0 : ℚ) ≤ (s.shirt : ℚ) := by exact_mod_cast h1
  have c11 : ((s.shirt : ℚ)) ≤ 100 := by exact_mod_cast h2
  have c20 : (0 : ℚ) ≤ (s.pant : ℚ) := by exact_mod_cast h3
  have c21 : ((s.pant : ℚ)) ≤ 100 := by exact_mod_cast h4
  have c30 : (0 : ℚ) ≤ (s.shoes : ℚ) := by exact_mod_cast h5
  have c31 : ((s.shoes : ℚ)) ≤ 100 := by exact_mod_cast h6
  have c40 : (0 : ℚ) ≤ (s.grooming : ℚ) := by exact_mod_cast h7
  have c41 : ((s.grooming : ℚ)) ≤ 100 := by exact_mod_cast h8
  have c50 : (0 : ℚ) ≤ (s.cleanliness : ℚ) := by exact_mod_cast h9
  have c51 : ((s.cleanliness : ℚ)) ≤ 100 := by exact_mod_cast h10
  have hw25 : |fl (0.25 : ℚ) - 0.25| ≤ 1 / 2 ^ 43 := fl_err (by norm_num) (by norm_num)
  have hw20 : |fl (0.2 : ℚ) - 0.2| ≤ 1 / 2 ^ 43 := fl_err (by norm_num) (by norm_num)
  have hw15 : |fl (0.15 : ℚ) - 0.15| ≤ 1 / 2 ^ 43 := fl_err (by norm_num) (by norm_num)
  have p1 := jsMul_weight_err c10 c11 (fl_nonneg _) hw25 (by norm_num)
  have p2 := jsMul_weight_err c20 c21 (fl_nonneg _) hw25 (by norm_num)
  have p3 := jsMul_weight_err c30 c31 (fl_nonneg _) hw20 (by norm_num)
  have p4 := jsMul_weight_err c40 c41 (fl_nonneg _) hw15 (by norm_num)
  have p5 := jsMul_weight_err c50 c51 (fl_nonneg _) hw15 (by norm_num)
  have a1 := jsAdd_acc_err p1.2.1 p2.2.1 (le_trans p1.2.2 (by norm_num))
    (le_trans p2.2.2 (by norm_num)) p1.1 p2.1
  have hS1 : jsAdd (jsMul ((s.shirt : ℚ)) (fl 0.25)) (jsMul ((s.pant : ℚ)) (fl 0.25)) ≤ 250 := by
    linarith [a1.2.2, p1.2.2, p2.2.2]
  have a2 := jsAdd_acc_err a1.2.1 p3.2.1 hS1 (le_trans p3.2.2 (by norm_num)) a1.1 p3.1
  have hS2 : jsAdd (jsAdd (jsMul ((s.shirt : ℚ)) (fl 0.25)) (jsMul ((s.pant : ℚ)) (fl 0.25)))
      (jsMul ((s.shoes : ℚ)) (fl 0.2)) ≤ 250 := by
    linarith [a2.2.2, a1.2.2, p1.2.2, p2.2.2, p3.2.2]
  have a3 := jsAdd_acc_err a2.2.1 p4.2.1 hS2 (le_trans p4.2.2 (by norm_num)) a2.1 p4.1
  have hS3 : jsAdd (jsAdd (jsAdd (jsMul ((s.shirt : ℚ)) (fl 0.25))
      (jsMul ((s.pant : ℚ)) (fl 0.25))) (jsMul ((s.shoes : ℚ)) (fl 0.2)))
      (jsMul ((s.grooming : ℚ)) (fl 0.15)) ≤ 250 := by
    linarith [a3.2.2, a2.2.2, a1.2.2, p1.2.2, p2.2.2, p3.2.2, p4.2.2]
  have a4 := jsAdd_acc_err a3.2.1 p5.2.1 hS3 (le_trans p5.2.2 (by norm_num)) a3.1 p5.1
  have hD := le_trans a4.1 (show (102 / 2 ^ 43 + 102 / 2 ^ 43 + 1 / 2 ^ 43) + 102 / 2 ^ 43 +
    1 / 2 ^ 43 + 102 / 2 ^ 43 + 1 / 2 ^ 43 + 102 / 2 ^ 43 + 1 / 2 ^ 43 ≤ (1 : ℚ) / 200 by norm_num)
  have habs := abs_le.mp hD
  have hEN : (s.shirt : ℚ) * 0.25 + (s.pant : ℚ) * 0.25 + (s.shoes : ℚ) * 0.2 +
      (s.grooming : ℚ) * 0.15 + (s.cleanliness : ℚ) * 0.15 =
      ((25 * s.shirt + 25 * s.pant + 20 * s.shoes + 15 * s.grooming +
        15 * s.cleanliness : ℤ) : ℚ) / 100 := by
    push_cast
    ring
  set Nv : ℤ := 25 * s.shirt + 25 * s.pant + 20 * s.shoes + 15 * s.grooming +
    15 * s.cleanliness with hNv
  have hmod := Int.ediv_add_emod (Nv + 50) 100
  have hr1 : 5 ≤ (Nv + 50) % 100 := by omega
  have hr2 : (Nv + 50) % 100 ≤ 95 := by omega
  have hround_exact : round (((Nv : ℤ) : ℚ) / 100) = (Nv + 50) / 100 := by
    rw [round_eq,
      show ((Nv : ℤ) : ℚ) / 100 + 1 / 2 = ((Nv + 50 : ℤ) : ℚ) / ((100 : ℕ) : ℚ) by push_cast; ring,
      Rat.floor_intCast_div_natCast]
    norm_num
  have hcast : ((Nv : ℤ) : ℚ) + 50 =
      100 * (((Nv + 50) / 100 : ℤ) : ℚ) + (((Nv + 50) % 100 : ℤ) : ℚ) := by
    have := congrArg (fun z : ℤ => (z : ℚ)) hmod
    push_cast at this
    linarith [this]
  have hq5 : (5 : ℚ) ≤ (((Nv + 50) % 100 : ℤ) : ℚ) := by exact_mod_cast hr1
  have hq95 : (((Nv + 50) % 100 : ℤ) : ℚ) ≤ 95 := by exact_mod_cast hr2
  rw [hEN, hround_exact]
  show jsMathRound (jsAdd (jsAdd (jsAdd (jsAdd (jsMul ((s.shirt : ℚ)) (fl 0.25))
    (jsMul ((s.pant : ℚ)) (fl 0.25))) (jsMul ((s.shoes : ℚ)) (fl 0.2)))
    (jsMul ((s.grooming : ℚ)) (fl 0.15))) (jsMul ((s.cleanliness : ℚ)) (fl 0.15))) =
    (Nv + 50) / 100
  rw [jsMathRound, round_eq, Int.floor_eq_iff]
  rw [hEN] at habs
  constructor
  · linarith [habs.1, habs.2, hq5, hq95, hcast]
  · linarith [habs.1, habs.2, hq5, hq95, hcast]

/-- Witness for `finalScore_rounds_weighted_sum` at the tie-free score set
`(80, 80, 80, 80, 80)`. -/
theorem finalScore_rounds_weighted_sum_witness :
    (calculateFinalGrade ⟨80, 80, 80, 80, 80⟩).1 =
      round (((80 : ℤ) : ℚ) * 0.25 + ((80 : ℤ) : ℚ) * 0.25 + ((80 : ℤ) : ℚ) * 0.2 +
        ((80 : ℤ) : ℚ) * 0.15 + ((80 : ℤ) : ℚ) * 0.15) ∧
    (0.25 : ℚ) + 0.25 + 0.2 + 0.15 + 0.15 = 1 :=
  finalScore_rounds_weighted_sum ⟨80, 80, 80, 80, 80⟩ (by decide) (by decide)

end Grading
